import Mathlib

/-!
Shallow embedding of the design-generation core of the `interior-be` backend:
the `DesignService` (generateDesign / processDesignGeneration / regenerateDesign),
the `UploadService.getUploadById` read path and its controller, and the prisma
row store they drive.  Machine state is a record of rows; prisma partial updates
are modelled as patches whose absent fields leave the row untouched, and the
fire-and-forget background task is modelled as an explicit second phase.
-/

namespace InteriorBE

/-- Lifecycle status of a Design row (prisma enum `DesignStatus`). -/
inductive DesignStatus where
  | PENDING
  | PROCESSING
  | COMPLETED
  | FAILED
deriving DecidableEq, Repr

/-- Statuses `COMPLETED` and `FAILED` are the terminal states of the job. -/
def DesignStatus.isTerminal : DesignStatus → Bool
  | .COMPLETED => true
  | .FAILED => true
  | _ => false

/-- JavaScript `x || dflt` for a possibly-undefined string:
`undefined` and `""` are falsy. -/
def strOr : Option String → String → String
  | none, d => d
  | some s, d => if s = "" then d else s

/-- A JavaScript thrown value: an `Error` carrying a message, or any other value. -/
inductive JSError where
  | err (message : String)
  | nonError
deriving DecidableEq, Repr

/-- Models `e instanceof Error ? e.message : dflt` (design.service.ts line 182). -/
def JSError.messageOrInstance : JSError → String → String
  | .err m, _ => m
  | .nonError, d => d

/-- Models `e.message || dflt` (design.service.ts line 76): an empty or missing
message falls back to the default. -/
def JSError.messageOr : JSError → String → String
  | .err m, d => if m = "" then d else m
  | .nonError, d => d

/-- The `project` fields selected alongside a room
(`include: { project: { select: { userId, style, type } } }`). -/
structure ProjectInfo where
  userId : String
  style : String
  type : String
deriving DecidableEq, Repr

/-- A `rooms` row joined with its project's selected fields. -/
structure Room where
  id : String
  projectId : String
  name : Option String
  type : String
  length : Rat
  width : Rat
  height : Rat
  materials : List String
  ambientColor : Option String
  freePrompt : Option String
  originalImageUrl : Option String
  project : ProjectInfo
deriving DecidableEq, Repr

/-- The JSONB `metadata` written on completion:
`{ ...aiResult.metadata, allImageUrls: aiResult.imageUrls }`. -/
structure DesignMetadata where
  provider : List (String × String)
  allImageUrls : List String
deriving DecidableEq, Repr

/-- A `designs` row. -/
structure Design where
  id : Nat
  roomId : String
  imageUrl : String
  prompt : String
  aiProvider : String
  status : DesignStatus
  processingTime : Option Nat
  error : Option String
  metadata : Option DesignMetadata
deriving DecidableEq, Repr

/-- The `project` fields selected under an upload's room. -/
structure UploadProjectInfo where
  id : String
  name : String
  userId : String
deriving DecidableEq, Repr

/-- The `room` fields selected alongside an upload. -/
structure UploadRoomInfo where
  id : String
  name : Option String
  type : String
  project : UploadProjectInfo
deriving DecidableEq, Repr

/-- An `uploads` row joined with its (nullable) room and that room's project. -/
structure Upload where
  id : String
  filename : String
  originalName : String
  mimeType : String
  size : Nat
  url : String
  cloudinaryId : Option String
  room : Option UploadRoomInfo
deriving DecidableEq, Repr

/-- The `AppError` class from error.middleware.ts. -/
structure AppError where
  message : String
  statusCode : Nat
  code : String
deriving DecidableEq, Repr

/-- A prisma partial update on a Design row: a `none` field is absent from the
update's `data` object and leaves the row's field untouched. -/
structure DesignPatch where
  imageUrl : Option String
  prompt : Option String
  status : Option DesignStatus
  processingTime : Option Nat
  error : Option String
  metadata : Option DesignMetadata
deriving DecidableEq, Repr

/-- Apply a prisma partial update to a row.  The id is never part of the
update data. -/
def applyPatch (p : DesignPatch) (d : Design) : Design :=
  { d with
    imageUrl := p.imageUrl.getD d.imageUrl
    prompt := p.prompt.getD d.prompt
    status := p.status.getD d.status
    processingTime :=
      match p.processingTime with
      | none => d.processingTime
      | some t => some t
    error :=
      match p.error with
      | none => d.error
      | some e => some e
    metadata :=
      match p.metadata with
      | none => d.metadata
      | some m => some m }

/-- The relational store, plus a log of every status value written to a design
row (one entry per create/update that carries a `status` field, in write
order), used to state the job's ordering guarantees. -/
structure DB where
  rooms : List Room
  designs : List Design
  uploads : List Upload
  nextDesignId : Nat
  log : List (Nat × DesignStatus)
deriving DecidableEq, Repr

/-- Models `prisma.room.findUnique({ where: { id } })`. -/
def DB.findRoom (db : DB) (id : String) : Option Room :=
  db.rooms.find? (fun r => r.id = id)

/-- Models `prisma.design.findUnique({ where: { id } })`. -/
def DB.findDesign (db : DB) (id : Nat) : Option Design :=
  db.designs.find? (fun d => d.id = id)

/-- Models `prisma.upload.findUnique({ where: { id } })`. -/
def DB.findUpload (db : DB) (id : String) : Option Upload :=
  db.uploads.find? (fun u => u.id = id)

/-- Models `prisma.design.create`: inserts a row under a fresh id; the initial status
is a status write, so it is logged. -/
def DB.createDesign (db : DB) (roomId imageUrl prompt aiProvider : String)
    (status : DesignStatus) : Design × DB :=
  let d : Design :=
    { id := db.nextDesignId, roomId := roomId, imageUrl := imageUrl,
      prompt := prompt, aiProvider := aiProvider, status := status,
      processingTime := none, error := none, metadata := none }
  (d, { db with
         designs := db.designs ++ [d]
         nextDesignId := db.nextDesignId + 1
         log := db.log ++ [(d.id, status)] })

/-- Models `prisma.design.update({ where: { id }, data })`: patches the matching row;
a status field in the data is logged as a status write. -/
def DB.updateDesign (db : DB) (id : Nat) (p : DesignPatch) : DB :=
  { db with
    designs := db.designs.map (fun d => if d.id = id then applyPatch p d else d)
    log := db.log ++ (match p.status with
      | none => []
      | some s => [(id, s)]) }

/-- Freshness of the id counter: every stored design id is below it. -/
def DB.wf (db : DB) : Prop :=
  ∀ d ∈ db.designs, d.id < db.nextDesignId

instance (db : DB) : Decidable db.wf := by
  unfold DB.wf; infer_instance

/-- The `GenerateDesignDto` shape from types/index.ts (optional fields may be absent). -/
structure GenerateDesignDto where
  roomId : String
  customPrompt : Option String
  aiProvider : Option String
deriving DecidableEq, Repr

/-- The optional overrides accepted by `regenerateDesign`. -/
structure RegenerateOptions where
  aiProvider : Option String
  customPrompt : Option String
deriving DecidableEq, Repr

/-- The `AIPromptData` shape assembled at design.service.ts lines 129-140. -/
structure AIPromptData where
  roomType : String
  style : String
  dimLength : Rat
  dimWidth : Rat
  dimHeight : Rat
  materials : List String
  ambientColor : Option String
  customPrompt : Option String
deriving DecidableEq, Repr

/-- The options passed to the provider adapter (provider tag + source image). -/
structure AIOptions where
  provider : String
  inputImageUrl : Option String
deriving DecidableEq, Repr

/-- The provider adapter's successful result. -/
structure AIResult where
  imageUrls : List String
  prompt : String
  metadata : List (String × String)
deriving DecidableEq, Repr

/-- The Generation Provider Adapter (`aiService.generateDesign`): an external
call that may reject with a thrown value. -/
abbrev ProviderFn : Type := AIPromptData → AIOptions → Except JSError AIResult

/-- The detached task scheduled by `generateDesign` (lines 63-67): the design
id, the room snapshot taken at initiation, the caller's custom prompt and the
resolved provider tag. -/
structure ScheduledTask where
  designId : Nat
  room : Room
  customPrompt : Option String
  aiProvider : String
deriving DecidableEq, Repr

/-- Embeds `DesignService.generateDesign` (design.service.ts lines 17-108), the
synchronous portion: precondition checks, creation of the PENDING row, and
scheduling of the detached task.  Returns the HTTP-facing result, the store
after the synchronous writes and the scheduled task (if any); on a thrown
error nothing was written, so the store is returned unchanged. -/
def generateDesign (db : DB) (userId : String) (designData : GenerateDesignDto) :
    (Except AppError Design) × DB × Option ScheduledTask :=
  let aiProvider := designData.aiProvider.getD "replicate"
  match db.findRoom designData.roomId with
  | none =>
      (Except.error
        { message := "Room not found", statusCode := 404, code := "ROOM_NOT_FOUND" },
       db, none)
  | some room =>
      if room.project.userId ≠ userId then
        (Except.error
          { message := "Access denied. You can only generate designs for your own rooms.",
            statusCode := 403, code := "ACCESS_DENIED" },
         db, none)
      else
        let created := db.createDesign designData.roomId ""
          (strOr designData.customPrompt "") aiProvider DesignStatus.PENDING
        (Except.ok created.1, created.2,
         some { designId := created.1.id, room := room,
                customPrompt := designData.customPrompt, aiProvider := aiProvider })

/-- The `AIPromptData` object built at design.service.ts lines 129-140. -/
def buildPromptData (room : Room) (customPrompt : Option String) : AIPromptData :=
  { roomType := room.type
    style := room.project.style
    dimLength := room.length
    dimWidth := room.width
    dimHeight := room.height
    materials := room.materials
    ambientColor := room.ambientColor
    customPrompt := customPrompt }

/-- Embeds `DesignService.processDesignGeneration` (lines 113-186) with the storage
writes succeeding: transition to PROCESSING, call the provider, then write the
terminal row.  `startTime` is the clock read just before the PROCESSING
update (line 119) and `endTime` the read just before the terminal write
(line 148 on success, line 172 on failure); `imageUrls[0]` of an empty list is
`undefined`, so the patch then leaves `imageUrl` untouched. -/
def processDesignGeneration (provider : ProviderFn) (db : DB)
    (task : ScheduledTask) (startTime endTime : Nat) : DB :=
  let db1 := db.updateDesign task.designId
    { imageUrl := none, prompt := none, status := some DesignStatus.PROCESSING,
      processingTime := none, error := none, metadata := none }
  let promptData := buildPromptData task.room task.customPrompt
  match provider promptData
      { provider := task.aiProvider, inputImageUrl := task.room.originalImageUrl } with
  | Except.ok aiResult =>
      db1.updateDesign task.designId
        { imageUrl := aiResult.imageUrls.head?
          prompt := some aiResult.prompt
          status := some DesignStatus.COMPLETED
          processingTime := some (endTime - startTime)
          error := none
          metadata := some { provider := aiResult.metadata
                             allImageUrls := aiResult.imageUrls } }
  | Except.error e =>
      db1.updateDesign task.designId
        { imageUrl := none, prompt := none
          status := some DesignStatus.FAILED
          processingTime := some (endTime - startTime)
          error := some (e.messageOrInstance "Unknown error")
          metadata := none }

/-- One initiate-generation request followed by the run of its detached task
(storage writes succeeding).  The first component is the synchronous HTTP
response, fixed before the task runs; the store is the state after the task
finishes. -/
def runGeneration (provider : ProviderFn) (db : DB) (userId : String)
    (dto : GenerateDesignDto) (startTime endTime : Nat) :
    (Except AppError Design) × DB :=
  match generateDesign db userId dto with
  | (res, db1, none) => (res, db1)
  | (res, db1, some task) =>
      (res, processDesignGeneration provider db1 task startTime endTime)

/-- The `.catch` attached to the detached task (design.service.ts lines
68-85): on rejection, a best-effort secondary update marks the design FAILED
with `error.message || "Design generation failed"`; when that update itself
rejects it is only logged and the store keeps its last written state. -/
def detachedCatchHandler (db : DB) (designId : Nat) (e : JSError)
    (secondaryUpdateSucceeds : Bool) : DB :=
  if secondaryUpdateSucceeds then
    db.updateDesign designId
      { imageUrl := none, prompt := none, status := some DesignStatus.FAILED,
        processingTime := none,
        error := some (e.messageOr "Design generation failed"), metadata := none }
  else db

/-- One initiate-generation request where the detached task's own promise may
reject: `taskRun` returns the store state the task left behind together with
its rejection reason (if any); a rejection is routed to the catch handler.
The synchronous response is fixed before any of this runs. -/
def runGenerationWithTaskOutcome (db : DB) (userId : String)
    (dto : GenerateDesignDto) (taskRun : DB → ScheduledTask → DB × Option JSError)
    (secondaryUpdateSucceeds : Bool) : (Except AppError Design) × DB :=
  match generateDesign db userId dto with
  | (res, db1, none) => (res, db1)
  | (res, db1, some task) =>
      match taskRun db1 task with
      | (db2, none) => (res, db2)
      | (db2, some e) =>
          (res, detachedCatchHandler db2 task.designId e secondaryUpdateSucceeds)

/-- Embeds `DesignService.getDesignById` (lines 191-235): 404 when absent, 403 when
the ownership chain does not resolve to the requester.  A design whose room
row is missing (impossible under the FK constraint) would make the prisma
include produce no room and the ownership access throw, surfacing as the
generic 500. -/
def getDesignById (db : DB) (designId : Nat) (userId : String) :
    Except AppError Design :=
  match db.findDesign designId with
  | none =>
      Except.error
        { message := "Design not found", statusCode := 404, code := "DESIGN_NOT_FOUND" }
  | some design =>
      match db.findRoom design.roomId with
      | none =>
          Except.error
            { message := "Failed to get design", statusCode := 500, code := "GET_DESIGN_ERROR" }
      | some room =>
          if room.project.userId ≠ userId then
            Except.error
              { message := "Access denied. You can only view your own designs.",
                statusCode := 403, code := "ACCESS_DENIED" }
          else Except.ok design

/-- Embeds `DesignService.regenerateDesign` (lines 541-607): fetch the original,
check ownership, then delegate to `generateDesign` with
`customPrompt := options?.customPrompt || original.prompt` and
`aiProvider := options?.aiProvider || original.aiProvider`. -/
def regenerateDesign (db : DB) (designId : Nat) (userId : String)
    (options : Option RegenerateOptions) :
    (Except AppError Design) × DB × Option ScheduledTask :=
  match db.findDesign designId with
  | none =>
      (Except.error
        { message := "Design not found", statusCode := 404, code := "DESIGN_NOT_FOUND" },
       db, none)
  | some originalDesign =>
      match db.findRoom originalDesign.roomId with
      | none =>
          (Except.error
            { message := "Failed to regenerate design", statusCode := 500,
              code := "DESIGN_REGENERATION_ERROR" },
           db, none)
      | some room =>
          if room.project.userId ≠ userId then
            (Except.error
              { message := "Access denied. You can only regenerate your own designs.",
                statusCode := 403, code := "ACCESS_DENIED" },
             db, none)
          else
            generateDesign db userId
              { roomId := originalDesign.roomId
                customPrompt :=
                  some (strOr (options.bind (fun o => o.customPrompt))
                    originalDesign.prompt)
                aiProvider :=
                  some (strOr (options.bind (fun o => o.aiProvider))
                    originalDesign.aiProvider) }

/-- Embeds `UploadService.getUploadById` (part_000 lines 104-151): looks the upload
up, returns 404 when absent, and otherwise returns the record — including its
room and that room's project — without any ownership comparison. -/
def getUploadById (db : DB) (uploadId : String) : Except AppError Upload :=
  match db.findUpload uploadId with
  | none =>
      Except.error
        { message := "Upload not found", statusCode := 404, code := "UPLOAD_NOT_FOUND" }
  | some upload => Except.ok upload

/-- Embeds `UploadController.getUpload` (upload.controller.ts lines 58-75): the
authenticated requester's id is available on the request but only the upload
id is passed to the service. -/
def getUploadHandler (db : DB) (requestUserId : String) (uploadId : String) :
    Except AppError Upload :=
  getUploadById db uploadId

/-! ### Concrete fixtures used to instantiate the theorems -/

def exProject : ProjectInfo :=
  { userId := "alice", style := "SCANDINAVIAN", type := "RESIDENTIAL" }

def exRoom : Room :=
  { id := "r1", projectId := "p1", name := some "Bedroom", type := "BEDROOM",
    length := 9/2, width := 16/5, height := 27/10, materials := ["wood"],
    ambientColor := none, freePrompt := none,
    originalImageUrl := some "https://cdn/alice/source.jpg",
    project := exProject }

/-- A store holding one room owned by `"alice"` and no designs yet. -/
def exDB : DB :=
  { rooms := [exRoom], designs := [], uploads := [], nextDesignId := 0, log := [] }

def exDto : GenerateDesignDto :=
  { roomId := "r1", customPrompt := none, aiProvider := none }

/-- A completed design of `"alice"` stored under id 0. -/
def exDesign0 : Design :=
  { id := 0, roomId := "r1", imageUrl := "https://cdn/alice/out.jpg",
    prompt := "orig prompt", aiProvider := "openai",
    status := DesignStatus.COMPLETED, processingTime := some 1200,
    error := none, metadata := none }

/-- A store holding `"alice"`'s room together with her completed design. -/
def exDB1 : DB :=
  { rooms := [exRoom], designs := [exDesign0], uploads := [], nextDesignId := 1,
    log := [(0, DesignStatus.PENDING), (0, DesignStatus.PROCESSING),
            (0, DesignStatus.COMPLETED)] }

/-- An upload whose ownership chain (room r1 → project p1) ends at `"alice"`. -/
def exUpload : Upload :=
  { id := "u1", filename := "room.jpg", originalName := "room.jpg",
    mimeType := "image/jpeg", size := 12345,
    url := "https://cdn/alice/room.jpg", cloudinaryId := some "cid1",
    room := some { id := "r1", name := some "Bedroom", type := "BEDROOM",
                   project := { id := "p1", name := "Alice Home", userId := "alice" } } }

def exDBupload : DB :=
  { rooms := [exRoom], designs := [], uploads := [exUpload], nextDesignId := 0,
    log := [] }

/-- A provider stub that succeeds with two image URLs. -/
def exProviderOk : ProviderFn := fun _ _ =>
  Except.ok { imageUrls := ["u1", "u2"], prompt := "p", metadata := [("m", "1")] }

/-- A provider stub that rejects with `Error("boom")`. -/
def exProviderBoom : ProviderFn := fun _ _ =>
  Except.error (JSError.err "boom")

/-- A generation request carrying a caller-supplied custom prompt. -/
def promptDto : GenerateDesignDto :=
  { roomId := "r1", customPrompt := some "Add plants and natural lighting",
    aiProvider := none }

/-! ### Store lemmas -/

theorem applyPatch_id (p : DesignPatch) (d : Design) :
    (applyPatch p d).id = d.id := rfl

theorem find?_map_patch (l : List Design) (i j : Nat) (p : DesignPatch) :
    (l.map (fun d => if d.id = i then applyPatch p d else d)).find?
        (fun d => d.id = j)
      = (l.find? (fun d => d.id = j)).map
          (fun d => if d.id = i then applyPatch p d else d) := by
  have hp : ((fun d => decide (d.id = j)) ∘
        fun d => if d.id = i then applyPatch p d else d)
      = (fun d : Design => decide (d.id = j)) := by
    funext d
    by_cases hi : d.id = i <;> simp [Function.comp, hi, applyPatch_id]
  rw [List.find?_map, hp]

/-- Reading any row through an update: the matching row is patched, every
other row is untouched. -/
theorem findDesign_updateDesign (db : DB) (i j : Nat) (p : DesignPatch) :
    (db.updateDesign i p).findDesign j
      = (db.findDesign j).map (fun d => if d.id = i then applyPatch p d else d) := by
  unfold DB.updateDesign DB.findDesign
  exact find?_map_patch db.designs i j p

theorem find?_designs_eq_none (l : List Design) (n : Nat)
    (h : ∀ d ∈ l, d.id < n) : l.find? (fun d => d.id = n) = none := by
  rw [List.find?_eq_none]
  intro d hd
  simp only [decide_eq_true_eq]
  have := h d hd
  omega

/-- A freshly created row is read back as created. -/
theorem findDesign_createDesign_self (db : DB) (hwf : db.wf)
    (roomId imageUrl prompt aiProvider : String) (st : DesignStatus) :
    (db.createDesign roomId imageUrl prompt aiProvider st).2.findDesign db.nextDesignId
      = some (db.createDesign roomId imageUrl prompt aiProvider st).1 := by
  unfold DB.createDesign DB.findDesign
  rw [List.find?_append, find?_designs_eq_none db.designs db.nextDesignId hwf,
    Option.none_or]
  simp [List.find?]

/-- Creating a row does not disturb a row that was already found. -/
theorem findDesign_createDesign_old (db : DB) (j : Nat) (d : Design)
    (h : db.findDesign j = some d)
    (roomId imageUrl prompt aiProvider : String) (st : DesignStatus) :
    (db.createDesign roomId imageUrl prompt aiProvider st).2.findDesign j = some d := by
  unfold DB.createDesign DB.findDesign
  unfold DB.findDesign at h
  rw [List.find?_append, h]
  rfl

/-- The synchronous response of a request is fixed before the detached task
runs: `runGeneration` answers exactly what `generateDesign` answered. -/
theorem runGeneration_fst (provider : ProviderFn) (db : DB) (userId : String)
    (dto : GenerateDesignDto) (t₀ t₁ : Nat) :
    (runGeneration provider db userId dto t₀ t₁).1
      = (generateDesign db userId dto).1 := by
  rcases hg : generateDesign db userId dto with ⟨res, db1, task⟩
  cases task <;> simp [runGeneration, hg]

/-- The synchronous response is likewise independent of the detached task's
outcome and of the fate of the secondary failure-recording update. -/
theorem runGenerationWithTaskOutcome_fst (db : DB) (userId : String)
    (dto : GenerateDesignDto) (taskRun : DB → ScheduledTask → DB × Option JSError)
    (sec : Bool) :
    (runGenerationWithTaskOutcome db userId dto taskRun sec).1
      = (generateDesign db userId dto).1 := by
  rcases hg : generateDesign db userId dto with ⟨res, db1, task⟩
  cases task with
  | none => simp [runGenerationWithTaskOutcome, hg]
  | some t =>
      rcases htr : taskRun db1 t with ⟨db2, e⟩
      cases e <;> simp [runGenerationWithTaskOutcome, hg, htr]

/-- In a three-write status trace `PENDING, PROCESSING, t`, any terminal
status write is the last write: nothing follows it. -/
theorem terminal_last_of_three (n : Nat) (t : DesignStatus)
    (pre post : List (Nat × DesignStatus)) (i : Nat) (s : DesignStatus)
    (h : [(n, DesignStatus.PENDING), (n, DesignStatus.PROCESSING), (n, t)]
        = pre ++ (i, s) :: post)
    (hterm : s.isTerminal = true) : post = [] := by
  rcases pre with _ | ⟨x, pre⟩
  · simp only [List.nil_append, List.cons.injEq, Prod.mk.injEq] at h
    rw [← h.1.2] at hterm
    simp [DesignStatus.isTerminal] at hterm
  · rcases pre with _ | ⟨y, pre⟩
    · simp only [List.cons_append, List.nil_append, List.cons.injEq,
        Prod.mk.injEq] at h
      rw [← h.2.1.2] at hterm
      simp [DesignStatus.isTerminal] at hterm
    · rcases pre with _ | ⟨z, pre⟩
      · simp only [List.cons_append, List.nil_append, List.cons.injEq] at h
        exact h.2.2.2.symm
      · simp only [List.cons_append, List.cons.injEq] at h
        have := h.2.2.2
        simp at this

/-! ### Claims -/

/-- C1: the claim says the authorization gate is applied before every
detail-revealing operation, in particular `getUploadById`, so no user can read
another user's resource.  The code contradicts it: `getUploadById` takes no
requester id and performs no ownership comparison, and the controller passes
only the upload id — here the handler returns `"alice"`'s upload, with its
room's and project's details, to requester `"bob"`. -/
theorem getUploadById_leaks_foreign_upload :
    getUploadHandler exDBupload "bob" "u1" = Except.ok exUpload
    ∧ exUpload.room.map (fun r => r.project.userId) = some "alice"
    ∧ ("bob" : String) ≠ "alice" := by
  refine ⟨rfl, rfl, by decide⟩

/-- C2: every owner-authorized initiate-generation call returns a Design with
status PENDING, and the synchronous return value is independent of the
provider's behavior and of the clock: the provider is only consulted by the
detached task, after the response is fixed. -/
theorem generateDesign_returns_pending_provider_independent
    (db : DB) (userId : String) (dto : GenerateDesignDto) (d : Design)
    (h : (generateDesign db userId dto).1 = Except.ok d) :
    d.status = DesignStatus.PENDING ∧
    ∀ (p₁ p₂ : ProviderFn) (t₀ t₁ t₀' t₁' : Nat),
      (runGeneration p₁ db userId dto t₀ t₁).1
        = (runGeneration p₂ db userId dto t₀' t₁').1 := by
  constructor
  · cases hr : db.findRoom dto.roomId with
    | none => simp [generateDesign, hr] at h
    | some room =>
        by_cases ho : room.project.userId = userId
        · simp [generateDesign, hr, ho, DB.createDesign] at h
          rw [← h]
        · simp [generateDesign, hr, ho] at h
  · intro p₁ p₂ t₀ t₁ t₀' t₁'
    rw [runGeneration_fst, runGeneration_fst]

theorem generateDesign_returns_pending_provider_independent_witness :
    ({ id := 0, roomId := "r1", imageUrl := "", prompt := "",
       aiProvider := "replicate", status := DesignStatus.PENDING,
       processingTime := none, error := none, metadata := none } : Design).status
        = DesignStatus.PENDING ∧
    (runGeneration exProviderOk exDB "alice" exDto 5 15).1
      = (runGeneration exProviderBoom exDB "alice" exDto 2 4).1 := by
  have h := generateDesign_returns_pending_provider_independent exDB "alice" exDto
    { id := 0, roomId := "r1", imageUrl := "", prompt := "",
      aiProvider := "replicate", status := DesignStatus.PENDING,
      processingTime := none, error := none, metadata := none } rfl
  exact ⟨h.1, h.2 exProviderOk exProviderBoom 5 15 2 4⟩

/-- C3: when the background task's provider call succeeds with a non-empty
image list, the Design row ends COMPLETED with `imageUrl` the first returned
URL, `prompt` the provider-resolved prompt (overwriting the caller draft
stored at creation), `metadata` the provider metadata extended with the full
URL list, and `processingTime` the elapsed time between the clock read just
before the PROCESSING transition and the one just before the terminal
write. -/
theorem processGeneration_success_updates
    (provider : ProviderFn) (db : DB) (userId : String) (dto : GenerateDesignDto)
    (room : Room) (res : AIResult) (u : String) (rest : List String) (t₀ t₁ : Nat)
    (hwf : db.wf)
    (hroom : db.findRoom dto.roomId = some room)
    (howner : room.project.userId = userId)
    (hp : provider (buildPromptData room dto.customPrompt)
        { provider := dto.aiProvider.getD "replicate",
          inputImageUrl := room.originalImageUrl } = Except.ok res)
    (himg : res.imageUrls = u :: rest) :
    (runGeneration provider db userId dto t₀ t₁).2.findDesign db.nextDesignId
      = some { id := db.nextDesignId, roomId := dto.roomId, imageUrl := u,
               prompt := res.prompt,
               aiProvider := dto.aiProvider.getD "replicate",
               status := DesignStatus.COMPLETED,
               processingTime := some (t₁ - t₀), error := none,
               metadata := some { provider := res.metadata, allImageUrls := u :: rest } } := by
  have hgen : generateDesign db userId dto
      = (Except.ok (db.createDesign dto.roomId "" (strOr dto.customPrompt "")
            (dto.aiProvider.getD "replicate") DesignStatus.PENDING).1,
         (db.createDesign dto.roomId "" (strOr dto.customPrompt "")
            (dto.aiProvider.getD "replicate") DesignStatus.PENDING).2,
         some { designId := db.nextDesignId, room := room,
                customPrompt := dto.customPrompt,
                aiProvider := dto.aiProvider.getD "replicate" }) := by
    simp [generateDesign, hroom, howner, DB.createDesign]
  rw [runGeneration, hgen]
  dsimp only [processDesignGeneration]
  rw [hp]
  rw [findDesign_updateDesign, findDesign_updateDesign,
    findDesign_createDesign_self db hwf]
  simp [DB.createDesign, applyPatch, himg]

theorem processGeneration_success_updates_witness :
    exDB.wf ∧
    (runGeneration exProviderOk exDB "alice" exDto 100 350).2.findDesign 0
      = some { id := 0, roomId := "r1", imageUrl := "u1", prompt := "p",
               aiProvider := "replicate", status := DesignStatus.COMPLETED,
               processingTime := some 250, error := none,
               metadata := some { provider := [("m", "1")],
                                  allImageUrls := ["u1", "u2"] } } := by
  refine ⟨by decide, ?_⟩
  exact processGeneration_success_updates exProviderOk exDB "alice" exDto
    exRoom { imageUrls := ["u1", "u2"], prompt := "p", metadata := [("m", "1")] }
    "u1" ["u2"] 100 350 (by decide) rfl rfl rfl rfl

/-- C4: when the background task's provider call rejects, the Design row ends
FAILED with `error` the thrown error's message (the generic fallback when the
thrown value is not an Error), `processingTime` the elapsed time, and
`imageUrl` still the empty string written at creation; the synchronous caller
still received the PENDING row, so nothing is re-thrown to it. -/
theorem processGeneration_failure_updates
    (provider : ProviderFn) (db : DB) (userId : String) (dto : GenerateDesignDto)
    (room : Room) (e : JSError) (t₀ t₁ : Nat)
    (hwf : db.wf)
    (hroom : db.findRoom dto.roomId = some room)
    (howner : room.project.userId = userId)
    (hp : provider (buildPromptData room dto.customPrompt)
        { provider := dto.aiProvider.getD "replicate",
          inputImageUrl := room.originalImageUrl } = Except.error e) :
    (runGeneration provider db userId dto t₀ t₁).2.findDesign db.nextDesignId
      = some { id := db.nextDesignId, roomId := dto.roomId, imageUrl := "",
               prompt := strOr dto.customPrompt "",
               aiProvider := dto.aiProvider.getD "replicate",
               status := DesignStatus.FAILED,
               processingTime := some (t₁ - t₀),
               error := some (e.messageOrInstance "Unknown error"),
               metadata := none } ∧
    (runGeneration provider db userId dto t₀ t₁).1
      = Except.ok { id := db.nextDesignId, roomId := dto.roomId, imageUrl := "",
                    prompt := strOr dto.customPrompt "",
                    aiProvider := dto.aiProvider.getD "replicate",
                    status := DesignStatus.PENDING, processingTime := none,
                    error := none, metadata := none } := by
  have hgen : generateDesign db userId dto
      = (Except.ok (db.createDesign dto.roomId "" (strOr dto.customPrompt "")
            (dto.aiProvider.getD "replicate") DesignStatus.PENDING).1,
         (db.createDesign dto.roomId "" (strOr dto.customPrompt "")
            (dto.aiProvider.getD "replicate") DesignStatus.PENDING).2,
         some { designId := db.nextDesignId, room := room,
                customPrompt := dto.customPrompt,
                aiProvider := dto.aiProvider.getD "replicate" }) := by
    simp [generateDesign, hroom, howner, DB.createDesign]
  constructor
  · rw [runGeneration, hgen]
    dsimp only [processDesignGeneration]
    rw [hp]
    rw [findDesign_updateDesign, findDesign_updateDesign,
      findDesign_createDesign_self db hwf]
    simp [DB.createDesign, applyPatch]
  · rw [runGeneration_fst, hgen]
    simp [DB.createDesign]

theorem processGeneration_failure_updates_witness :
    exDB.wf ∧
    (runGeneration exProviderBoom exDB "alice" exDto 100 350).2.findDesign 0
      = some { id := 0, roomId := "r1", imageUrl := "",
               prompt := "", aiProvider := "replicate",
               status := DesignStatus.FAILED, processingTime := some 250,
               error := some "boom", metadata := none } ∧
    (runGeneration exProviderBoom exDB "alice" exDto 100 350).1
      = Except.ok { id := 0, roomId := "r1", imageUrl := "", prompt := "",
                    aiProvider := "replicate", status := DesignStatus.PENDING,
                    processingTime := none, error := none, metadata := none } := by
  have h := processGeneration_failure_updates exProviderBoom exDB "alice" exDto
    exRoom (JSError.err "boom") 100 350 (by decide) rfl rfl rfl
  exact ⟨by decide, h.1, h.2⟩

/-- C5: for one job run the status writes to the created design id are
exactly create-PENDING, then PROCESSING, then one terminal write, in that
order; and a terminal write is never followed by another write, so a design
never leaves COMPLETED or FAILED within the job. -/
theorem job_write_order_terminal
    (provider : ProviderFn) (db : DB) (userId : String) (dto : GenerateDesignDto)
    (room : Room) (t₀ t₁ : Nat)
    (hroom : db.findRoom dto.roomId = some room)
    (howner : room.project.userId = userId) :
    ∃ t : DesignStatus, t.isTerminal = true ∧
      ((runGeneration provider db userId dto t₀ t₁).2.log.drop db.log.length)
        = [(db.nextDesignId, DesignStatus.PENDING),
           (db.nextDesignId, DesignStatus.PROCESSING),
           (db.nextDesignId, t)] ∧
      ∀ (pre post : List (Nat × DesignStatus)) (i : Nat) (s : DesignStatus),
        ((runGeneration provider db userId dto t₀ t₁).2.log.drop db.log.length)
          = pre ++ (i, s) :: post → s.isTerminal = true → post = [] := by
  have hgen : generateDesign db userId dto
      = (Except.ok (db.createDesign dto.roomId "" (strOr dto.customPrompt "")
            (dto.aiProvider.getD "replicate") DesignStatus.PENDING).1,
         (db.createDesign dto.roomId "" (strOr dto.customPrompt "")
            (dto.aiProvider.getD "replicate") DesignStatus.PENDING).2,
         some { designId := db.nextDesignId, room := room,
                customPrompt := dto.customPrompt,
                aiProvider := dto.aiProvider.getD "replicate" }) := by
    simp [generateDesign, hroom, howner, DB.createDesign]
  rw [runGeneration, hgen]
  dsimp only [processDesignGeneration]
  cases hp : provider (buildPromptData room dto.customPrompt)
      { provider := dto.aiProvider.getD "replicate",
        inputImageUrl := room.originalImageUrl } with
  | ok aiResult =>
      dsimp only
      have hlog : (((db.createDesign dto.roomId "" (strOr dto.customPrompt "")
              (dto.aiProvider.getD "replicate") DesignStatus.PENDING).2.updateDesign
                db.nextDesignId
                { imageUrl := none, prompt := none,
                  status := some DesignStatus.PROCESSING, processingTime := none,
                  error := none, metadata := none }).updateDesign
            db.nextDesignId
            { imageUrl := aiResult.imageUrls.head?, prompt := some aiResult.prompt,
              status := some DesignStatus.COMPLETED,
              processingTime := some (t₁ - t₀), error := none,
              metadata := some { provider := aiResult.metadata,
                                 allImageUrls := aiResult.imageUrls } }).log.drop
            db.log.length
          = [(db.nextDesignId, DesignStatus.PENDING),
             (db.nextDesignId, DesignStatus.PROCESSING),
             (db.nextDesignId, DesignStatus.COMPLETED)] := by
        simp [DB.createDesign, DB.updateDesign, List.append_assoc]
      refine ⟨DesignStatus.COMPLETED, rfl, hlog, ?_⟩
      intro pre post i s hdec hterm
      rw [hlog] at hdec
      exact terminal_last_of_three db.nextDesignId DesignStatus.COMPLETED
        pre post i s hdec hterm
  | error e =>
      dsimp only
      have hlog : (((db.createDesign dto.roomId "" (strOr dto.customPrompt "")
              (dto.aiProvider.getD "replicate") DesignStatus.PENDING).2.updateDesign
                db.nextDesignId
                { imageUrl := none, prompt := none,
                  status := some DesignStatus.PROCESSING, processingTime := none,
                  error := none, metadata := none }).updateDesign
            db.nextDesignId
            { imageUrl := none, prompt := none,
              status := some DesignStatus.FAILED,
              processingTime := some (t₁ - t₀),
              error := some (e.messageOrInstance "Unknown error"),
              metadata := none }).log.drop db.log.length
          = [(db.nextDesignId, DesignStatus.PENDING),
             (db.nextDesignId, DesignStatus.PROCESSING),
             (db.nextDesignId, DesignStatus.FAILED)] := by
        simp [DB.createDesign, DB.updateDesign, List.append_assoc]
      refine ⟨DesignStatus.FAILED, rfl, hlog, ?_⟩
      intro pre post i s hdec hterm
      rw [hlog] at hdec
      exact terminal_last_of_three db.nextDesignId DesignStatus.FAILED
        pre post i s hdec hterm

theorem job_write_order_terminal_witness :
    ∃ t : DesignStatus, t.isTerminal = true ∧
      ((runGeneration exProviderOk exDB "alice" exDto 100 350).2.log.drop
          exDB.log.length)
        = [(0, DesignStatus.PENDING), (0, DesignStatus.PROCESSING), (0, t)] ∧
      ∀ (pre post : List (Nat × DesignStatus)) (i : Nat) (s : DesignStatus),
        ((runGeneration exProviderOk exDB "alice" exDto 100 350).2.log.drop
            exDB.log.length)
          = pre ++ (i, s) :: post → s.isTerminal = true → post = [] :=
  job_write_order_terminal exProviderOk exDB "alice" exDto exRoom 100 350 rfl rfl

/-- C6: initiate-generation on a missing room fails with the 404 not-found
error, and on a room whose project is owned by someone else fails with the
403 access-denied error; in both cases the returned store is the input store
unchanged — no Design row was created — and no task is scheduled. -/
theorem generateDesign_precondition_failures
    (db : DB) (userId : String) (dto : GenerateDesignDto) :
    (db.findRoom dto.roomId = none →
       generateDesign db userId dto
         = (Except.error { message := "Room not found", statusCode := 404,
                           code := "ROOM_NOT_FOUND" }, db, none)) ∧
    (∀ room : Room, db.findRoom dto.roomId = some room →
       room.project.userId ≠ userId →
       generateDesign db userId dto
         = (Except.error
              { message := "Access denied. You can only generate designs for your own rooms.",
                statusCode := 403, code := "ACCESS_DENIED" }, db, none)) := by
  constructor
  · intro h
    simp [generateDesign, h]
  · intro room h hne
    simp [generateDesign, h, hne]

theorem generateDesign_precondition_failures_witness :
    generateDesign exDB "alice"
        { roomId := "missing", customPrompt := none, aiProvider := none }
      = (Except.error { message := "Room not found", statusCode := 404,
                        code := "ROOM_NOT_FOUND" }, exDB, none) ∧
    generateDesign exDB "bob" exDto
      = (Except.error
           { message := "Access denied. You can only generate designs for your own rooms.",
             statusCode := 403, code := "ACCESS_DENIED" }, exDB, none) :=
  ⟨(generateDesign_precondition_failures exDB "alice"
      { roomId := "missing", customPrompt := none, aiProvider := none }).1 rfl,
   (generateDesign_precondition_failures exDB "bob" exDto).2 exRoom rfl (by decide)⟩

/-- C7: when the detached task's own promise rejects, the catch wrapper's
secondary update marks the row FAILED with `error.message ||` the generic
fallback; when that secondary update itself fails the store keeps its last
successfully-written state; and in every case the synchronous response
already handed to the HTTP caller is untouched by the detached outcome. -/
theorem detached_failure_isolation
    (db : DB) (userId : String) (dto : GenerateDesignDto) :
    (∀ (taskRun : DB → ScheduledTask → DB × Option JSError) (sec : Bool),
        (runGenerationWithTaskOutcome db userId dto taskRun sec).1
          = (generateDesign db userId dto).1) ∧
    (∀ (db' : DB) (designId : Nat) (e : JSError) (d : Design),
        db'.findDesign designId = some d →
        (detachedCatchHandler db' designId e true).findDesign designId
          = some { d with status := DesignStatus.FAILED,
                          error := some (e.messageOr "Design generation failed") }) ∧
    (∀ (db' : DB) (designId : Nat) (e : JSError),
        detachedCatchHandler db' designId e false = db') := by
  refine ⟨?_, ?_, fun _ _ _ => rfl⟩
  · intro taskRun sec
    exact runGenerationWithTaskOutcome_fst db userId dto taskRun sec
  · intro db' designId e d hd
    have hid : d.id = designId := by
      have := List.find?_some hd
      simpa using this
    have hred : detachedCatchHandler db' designId e true
        = db'.updateDesign designId
            { imageUrl := none, prompt := none,
              status := some DesignStatus.FAILED, processingTime := none,
              error := some (e.messageOr "Design generation failed"),
              metadata := none } := rfl
    rw [hred, findDesign_updateDesign, hd]
    simp [applyPatch, hid]

theorem detached_failure_isolation_witness :
    (runGenerationWithTaskOutcome exDB1 "alice" exDto
        (fun db _ => (db, some (JSError.err "boom"))) true).1
      = (generateDesign exDB1 "alice" exDto).1 ∧
    (detachedCatchHandler exDB1 0 (JSError.err "boom") true).findDesign 0
      = some { exDesign0 with status := DesignStatus.FAILED,
                              error := some "boom" } ∧
    detachedCatchHandler exDB1 0 (JSError.err "boom") false = exDB1 := by
  have h := detached_failure_isolation exDB1 "alice" exDto
  have h2 := h.2.1 exDB1 0 (JSError.err "boom") exDesign0 rfl
  have hm : (JSError.err "boom").messageOr "Design generation failed" = "boom" := rfl
  rw [hm] at h2
  exact ⟨h.1 (fun db _ => (db, some (JSError.err "boom"))) true, h2,
    h.2.2 exDB1 0 (JSError.err "boom")⟩

/-- C8: an owner's regenerate call returns a brand-new Design row under a
fresh id (distinct from every stored id) with the same roomId as the original;
without overrides the scheduled generation carries the original's prompt and
provider, the new row itself repeats them, and the original row is unchanged
in the store — both after the synchronous part and after the detached task
runs. -/
theorem regenerateDesign_creates_sibling
    (db : DB) (designId : Nat) (userId : String) (orig : Design) (room : Room)
    (hwf : db.wf)
    (hfind : db.findDesign designId = some orig)
    (hroom : db.findRoom orig.roomId = some room)
    (howner : room.project.userId = userId) :
    ∃ d' : Design,
      (regenerateDesign db designId userId none).1 = Except.ok d' ∧
      d'.id = db.nextDesignId ∧
      (∀ d0 ∈ db.designs, d0.id ≠ d'.id) ∧
      d'.roomId = orig.roomId ∧
      d'.prompt = orig.prompt ∧
      d'.aiProvider = orig.aiProvider ∧
      (regenerateDesign db designId userId none).2.1.findDesign designId = some orig ∧
      (∀ (provider : ProviderFn) (task : ScheduledTask) (t₀ t₁ : Nat),
         (regenerateDesign db designId userId none).2.2 = some task →
         (processDesignGeneration provider (regenerateDesign db designId userId none).2.1
             task t₀ t₁).findDesign designId = some orig) := by
  have horig_mem : orig ∈ db.designs := List.mem_of_find?_eq_some hfind
  have hid : orig.id = designId := by
    have := List.find?_some hfind
    simpa using this
  have hlt : orig.id < db.nextDesignId := hwf orig horig_mem
  have hprompt : strOr (some orig.prompt) "" = orig.prompt := by
    by_cases h0 : orig.prompt = "" <;> simp [strOr, h0]
  have hregen : regenerateDesign db designId userId none
      = (Except.ok (db.createDesign orig.roomId "" (strOr (some orig.prompt) "")
            orig.aiProvider DesignStatus.PENDING).1,
         (db.createDesign orig.roomId "" (strOr (some orig.prompt) "")
            orig.aiProvider DesignStatus.PENDING).2,
         some { designId := db.nextDesignId, room := room,
                customPrompt := some orig.prompt,
                aiProvider := orig.aiProvider }) := by
    simp [regenerateDesign, hfind, hroom, howner, generateDesign, strOr,
      DB.createDesign]
  refine ⟨(db.createDesign orig.roomId "" (strOr (some orig.prompt) "")
      orig.aiProvider DesignStatus.PENDING).1, ?_, rfl, ?_, rfl, ?_, rfl, ?_, ?_⟩
  · rw [hregen]
  · intro d0 hd0
    have := hwf d0 hd0
    simp [DB.createDesign]
    omega
  · simpa [DB.createDesign] using hprompt
  · rw [hregen]
    exact findDesign_createDesign_old db designId orig hfind _ _ _ _ _
  · intro provider task t₀ t₁ htask
    rw [hregen] at htask
    simp only [Option.some.injEq] at htask
    rw [hregen]
    dsimp only [processDesignGeneration]
    rw [← htask]
    dsimp only
    cases provider (buildPromptData room (some orig.prompt))
        { provider := orig.aiProvider, inputImageUrl := room.originalImageUrl } with
    | ok aiResult =>
        dsimp only
        rw [findDesign_updateDesign, findDesign_updateDesign,
          findDesign_createDesign_old db designId orig hfind]
        have hne : orig.id ≠ db.nextDesignId := by omega
        simp [hne]
    | error e =>
        dsimp only
        rw [findDesign_updateDesign, findDesign_updateDesign,
          findDesign_createDesign_old db designId orig hfind]
        have hne : orig.id ≠ db.nextDesignId := by omega
        simp [hne]

theorem regenerateDesign_creates_sibling_witness :
    ∃ d' : Design,
      (regenerateDesign exDB1 0 "alice" none).1 = Except.ok d' ∧
      d'.id = 1 ∧
      (∀ d0 ∈ exDB1.designs, d0.id ≠ d'.id) ∧
      d'.roomId = "r1" ∧
      d'.prompt = "orig prompt" ∧
      d'.aiProvider = "openai" ∧
      (regenerateDesign exDB1 0 "alice" none).2.1.findDesign 0 = some exDesign0 ∧
      (∀ (provider : ProviderFn) (task : ScheduledTask) (t₀ t₁ : Nat),
         (regenerateDesign exDB1 0 "alice" none).2.2 = some task →
         (processDesignGeneration provider (regenerateDesign exDB1 0 "alice" none).2.1
             task t₀ t₁).findDesign 0 = some exDesign0) :=
  regenerateDesign_creates_sibling exDB1 0 "alice" exDesign0 exRoom
    (by decide) rfl rfl rfl

/-- C9 counterexample: the claim says every successful initiate-generation
call — including one with a caller-supplied custom prompt — creates and
returns a row with empty `prompt`.  The code stores `customPrompt || ""`, so
with a custom prompt the returned row's prompt is that prompt, not empty. -/
theorem generateDesign_custom_prompt_not_empty :
    (generateDesign exDB "alice" promptDto).1
      = Except.ok { id := 0, roomId := "r1", imageUrl := "",
                    prompt := "Add plants and natural lighting",
                    aiProvider := "replicate", status := DesignStatus.PENDING,
                    processingTime := none, error := none, metadata := none }
    ∧ ("Add plants and natural lighting" : String) ≠ "" := by
  exact ⟨rfl, by decide⟩

/-- C9 (amended): every successful initiate-generation call creates — and
returns — a row with empty `imageUrl` and status PENDING whose `prompt` is
the caller-supplied custom prompt when one is supplied (empty otherwise, an
empty-string custom prompt included), and the stored row equals the returned
row. -/
theorem generateDesign_created_row_amended
    (db : DB) (userId : String) (dto : GenerateDesignDto) (d : Design)
    (hwf : db.wf)
    (h : (generateDesign db userId dto).1 = Except.ok d) :
    d.imageUrl = "" ∧ d.status = DesignStatus.PENDING ∧
    d.prompt = strOr dto.customPrompt "" ∧
    (generateDesign db userId dto).2.1.findDesign d.id = some d := by
  cases hr : db.findRoom dto.roomId with
  | none => simp [generateDesign, hr] at h
  | some room =>
      by_cases ho : room.project.userId = userId
      · have hgen : generateDesign db userId dto
            = (Except.ok (db.createDesign dto.roomId "" (strOr dto.customPrompt "")
                  (dto.aiProvider.getD "replicate") DesignStatus.PENDING).1,
               (db.createDesign dto.roomId "" (strOr dto.customPrompt "")
                  (dto.aiProvider.getD "replicate") DesignStatus.PENDING).2,
               some { designId := db.nextDesignId, room := room,
                      customPrompt := dto.customPrompt,
                      aiProvider := dto.aiProvider.getD "replicate" }) := by
          simp [generateDesign, hr, ho, DB.createDesign]
        rw [hgen] at h
        simp only [Except.ok.injEq] at h
        rw [hgen, ← h]
        exact ⟨rfl, rfl, rfl, findDesign_createDesign_self db hwf _ _ _ _ _⟩
      · simp [generateDesign, hr, ho] at h

theorem generateDesign_created_row_amended_witness :
    ({ id := 0, roomId := "r1", imageUrl := "",
       prompt := "Add plants and natural lighting", aiProvider := "replicate",
       status := DesignStatus.PENDING, processingTime := none, error := none,
       metadata := none } : Design).imageUrl = "" ∧
    ({ id := 0, roomId := "r1", imageUrl := "",
       prompt := "Add plants and natural lighting", aiProvider := "replicate",
       status := DesignStatus.PENDING, processingTime := none, error := none,
       metadata := none } : Design).status = DesignStatus.PENDING ∧
    ({ id := 0, roomId := "r1", imageUrl := "",
       prompt := "Add plants and natural lighting", aiProvider := "replicate",
       status := DesignStatus.PENDING, processingTime := none, error := none,
       metadata := none } : Design).prompt = strOr promptDto.customPrompt "" ∧
    (generateDesign exDB "alice" promptDto).2.1.findDesign 0
      = some { id := 0, roomId := "r1", imageUrl := "",
               prompt := "Add plants and natural lighting",
               aiProvider := "replicate", status := DesignStatus.PENDING,
               processingTime := none, error := none, metadata := none } :=
  generateDesign_created_row_amended exDB "alice" promptDto
    { id := 0, roomId := "r1", imageUrl := "",
      prompt := "Add plants and natural lighting", aiProvider := "replicate",
      status := DesignStatus.PENDING, processingTime := none, error := none,
      metadata := none } (by decide) rfl

/-- C10: regenerate treats an empty-string custom-prompt override as absent —
with any provider override, options `{customPrompt: ""}` and options without
a custom prompt produce identical results — and with no options at all the
delegated generation call receives the original design's stored prompt and
provider. -/
theorem regenerate_empty_prompt_override_absent
    (db : DB) (designId : Nat) (userId : String) (orig : Design) (room : Room)
    (hfind : db.findDesign designId = some orig)
    (hroom : db.findRoom orig.roomId = some room)
    (howner : room.project.userId = userId) :
    (∀ (db' : DB) (id' : Nat) (u' : String) (o : Option String),
       regenerateDesign db' id' u' (some { aiProvider := o, customPrompt := some "" })
         = regenerateDesign db' id' u' (some { aiProvider := o, customPrompt := none })) ∧
    regenerateDesign db designId userId none
      = generateDesign db userId
          { roomId := orig.roomId, customPrompt := some orig.prompt,
            aiProvider := some orig.aiProvider } := by
  constructor
  · intro db' id' u' o
    cases hf : db'.findDesign id' with
    | none => simp [regenerateDesign, hf]
    | some od =>
        cases hr : db'.findRoom od.roomId with
        | none => simp [regenerateDesign, hf, hr]
        | some rm =>
            by_cases ho : rm.project.userId = u'
            · simp [regenerateDesign, hf, hr, ho, strOr]
            · simp [regenerateDesign, hf, hr, ho]
  · simp [regenerateDesign, hfind, hroom, howner, strOr]

theorem regenerate_empty_prompt_override_absent_witness :
    regenerateDesign exDB1 0 "bob"
        (some { aiProvider := some "openai", customPrompt := some "" })
      = regenerateDesign exDB1 0 "bob"
          (some { aiProvider := some "openai", customPrompt := none }) ∧
    regenerateDesign exDB1 0 "alice" none
      = generateDesign exDB1 "alice"
          { roomId := "r1", customPrompt := some "orig prompt",
            aiProvider := some "openai" } := by
  have h := regenerate_empty_prompt_override_absent exDB1 0 "alice" exDesign0
    exRoom rfl rfl rfl
  exact ⟨h.1 exDB1 0 "bob" (some "openai"), h.2⟩

end InteriorBE
